import Mathlib

/-!
Shallow embedding of the glean.js counter-metric recording pipeline.

Embedded from the source files:
* `src/glean/src/core/metrics/types/counter.ts` — `CounterMetric.validate`,
  the transform closure of `InternalCounterMetricType.addUndispatched`, the
  task-boundary catch, and `add`;
* `src/unnamed/part_000` (the `Context` singleton) — the guarded static
  accessors, the lazy dispatcher getter, and `testUninitialize`.

Collaborators that are referenced by those files but whose code is not part of
the repository snapshot (`utils.ts`, `metric.ts`, the metrics database, the
error manager and the dispatcher) are modelled from the specification; each
such definition says so in its doc comment.

JavaScript numbers are modelled as rationals (which captures integer-ness,
ordering and JS truthiness of the finite numbers the claims are about), and
machine integers as unbounded `Int` with explicit clamping at
`Number.MAX_SAFE_INTEGER` where the code clamps.
-/

/-- Maximum representable counter value, `Number.MAX_SAFE_INTEGER`.
Modelled from the spec: `saturatingAdd` clamps at the representable maximum. -/
def MAX_SAFE_INTEGER : ℤ := 2 ^ 53 - 1

/-- JSON scalar values as stored or passed around in JavaScript. Models the
subset of `JSONValue` relevant to counter metrics: numbers (as rationals),
strings, booleans and `null`. -/
inductive JValue where
  | num (q : ℚ)
  | str (s : String)
  | bool (b : Bool)
  | null
deriving DecidableEq

/-- JavaScript truthiness of a value, as tested by `if (v)` in the transform
closure of counter.ts: the number 0, the empty string, `false` and `null` are
falsy. -/
def JValue.truthy : JValue → Bool
  | .num q => q != 0
  | .str s => s != ""
  | .bool b => b
  | .null => false

/-- Modelled from the spec: `isInteger` from utils (not under src/) — true
exactly for JavaScript numbers that are integers. -/
def isInteger : JValue → Bool
  | .num q => q.den == 1
  | _ => false

/-- The JavaScript comparison `v <= 0`, only ever reached for numbers in
`validate`. -/
def JValue.leZero : JValue → Bool
  | .num q => decide (q ≤ 0)
  | _ => false

/-- Model of `JSON.stringify` restricted to the scalar values above; used only
to build error and log message strings. -/
def jsonStringify : JValue → String
  | .num q => toString q
  | .str s => "\"" ++ s ++ "\""
  | .bool b => toString b
  | .null => "null"

/-- Error kinds recorded against a metric. Only `InvalidValue` is referenced by
the counter source; a validation error built without a tag is counted
separately (spec: the outcome carries an optional ErrorKind). -/
inductive ErrorType where
  | invalidValue
deriving DecidableEq

/-- Result of `validate`: the source returns `{type: Success}` or
`{type: Error, errorMessage, errorType?}`. -/
inductive MetricValidationResult where
  | success
  | error (errorMessage : String) (errorType : Option ErrorType)
deriving DecidableEq

/-- Whether a validation outcome is the success case. -/
def MetricValidationResult.isSuccess : MetricValidationResult → Bool
  | .success => true
  | .error _ _ => false

/-- From counter.ts, `CounterMetric.validate`: non-integers are rejected with
an untagged validation error; integers that are ≤ 0 are rejected with an
`InvalidValue`-tagged error; positive integers pass. -/
def CounterMetric.validate (v : JValue) : MetricValidationResult :=
  if !(isInteger v) then
    .error (s!"Expected integer value, got {jsonStringify v}") none
  else if v.leZero then
    .error (s!"Expected positive value, got {jsonStringify v}") (some .invalidValue)
  else
    .success

/-- Modelled from the spec: `saturatingAdd(current, delta)` from utils (not
under src/) returns `min(current + delta, MAX)`. -/
def saturatingAdd (current delta : ℤ) : ℤ :=
  min (current + delta) MAX_SAFE_INTEGER

/-- Modelled from the spec: the typed validation error raised by wrapper
construction (`MetricValidationError` from metric.ts, not under src/); it
carries the validation outcome. -/
structure MetricValidationError where
  errorMessage : String
  errorType : Option ErrorType
deriving DecidableEq

/-- The numeric content of a value that passed `validate` (the JavaScript code
keeps the number itself as the metric's `_inner`). -/
def JValue.asInt : JValue → ℤ
  | .num q => q.num
  | _ => 0

/-- Modelled from the spec: `Metric.validateOrThrow` (metric.ts, not under
src/) — runs `validate` and raises a typed validation error carrying the
outcome on failure; on success the value becomes the counter's inner number. -/
def validateOrThrow (v : JValue) : Except MetricValidationError ℤ :=
  match CounterMetric.validate v with
  | .success => .ok v.asInt
  | .error m k => .error ⟨m, k⟩

/-- Construction `new CounterMetric(v)`: the `Metric` base constructor
validates and stores the value, or throws a `MetricValidationError`
(modelled from the spec, metric.ts is not under src/). -/
def CounterMetric.construct (v : JValue) : Except MetricValidationError ℤ :=
  validateOrThrow v

/-- From counter.ts, the `CounterMetric.saturatingAdd` method: validates `v`
(throwing a `MetricValidationError` on failure) and saturating-adds it onto
the inner value. -/
def CounterMetric.saturatingAddM (inner : ℤ) (v : JValue) :
    Except MetricValidationError ℤ :=
  (validateOrThrow v).map (fun amt => saturatingAdd inner amt)

/-- The warning logged by the transform closure in counter.ts when the stored
value cannot be merged. -/
def overwriteWarning (name : String) (v : JValue) : String :=
  s!"Unexpected value found in storage for metric {name}: {jsonStringify v}. Overwriting."

/-- The transform closure built by `addUndispatched` in counter.ts: construct
a fresh `CounterMetric` from `amount` (this may raise a validation error,
which escapes the closure), then, if a truthy stored value is present, try to
merge it in with `saturatingAdd`; a merge failure is caught locally, the
overwrite warning is logged, and the stored value is discarded. Returns the
resulting inner value together with the log messages emitted. -/
def transformFn (name : String) (amount : ℚ) (v : Option JValue) :
    Except MetricValidationError (ℤ × List String) :=
  match CounterMetric.construct (.num amount) with
  | .error e => .error e
  | .ok inner =>
    match v with
    | none => .ok (inner, [])
    | some w =>
      if w.truthy then
        match CounterMetric.saturatingAddM inner w with
        | .ok merged => .ok (merged, [])
        | .error _ => .ok (inner, [overwriteWarning name w])
      else
        .ok (inner, [])

/-- Observable recording state for one counter metric: the raw value stored in
its destination bucket, the error-metric counters, and the log. -/
structure GleanState where
  stored : Option JValue
  invalidValueErrors : Nat
  untaggedErrors : Nat
  logs : List String
deriving DecidableEq

/-- A store with no prior value for the metric, no recorded errors and an
empty log. -/
def emptyState : GleanState := ⟨none, 0, 0, []⟩

/-- Failures that can escape the body of a recording task: a validation error
raised while building the wrapper, or a failure of the store collaborator
itself (StoreIOFailure in the spec's taxonomy). -/
inductive TaskError where
  | validation (e : MetricValidationError)
  | storeFailure
deriving DecidableEq

/-- Modelled from the spec: `metricsDatabase.transform(identifier, f)` — an
atomic per-key read-modify-write. It applies `f` to the current raw stored
value and persists the resulting payload; a failure raised by `f` aborts the
operation without writing; `ioFail` set models the store collaborator itself
failing. -/
def dbTransform (ioFail : Bool)
    (f : Option JValue → Except MetricValidationError (ℤ × List String))
    (s : GleanState) : Except TaskError GleanState :=
  if ioFail then .error .storeFailure
  else
    match f s.stored with
    | .ok (val, msgs) =>
        .ok { s with stored := some (.num (val : ℚ)), logs := s.logs ++ msgs }
    | .error e => .error (.validation e)

/-- Modelled from the spec: `MetricValidationError.recordError` — converts the
validation error into an error-metric increment of its kind against the
metric; an error carrying no ErrorKind tag is counted separately from
`InvalidValue`. -/
def recordValidationError (e : MetricValidationError) (s : GleanState) : GleanState :=
  match e.errorType with
  | some .invalidValue => { s with invalidValueErrors := s.invalidValueErrors + 1 }
  | none => { s with untaggedErrors := s.untaggedErrors + 1 }

/-- Modelled from the spec: `MetricType.shouldRecord` — recording proceeds
only when the global enablement flag is set. -/
def shouldRecord (uploadEnabled : Bool) : Bool := uploadEnabled

/-- From counter.ts, `InternalCounterMetricType.addUndispatched`: return early
when recording is disabled, default a missing amount to 1, submit the
transform closure to the store, and catch every failure at the task boundary —
a `MetricValidationError` is forwarded to the error recorder, any other
failure (such as a store failure) is silently discarded by the
`instanceof` filter in the catch block. A `.error` result would mean an
exception escapes the task; the catch makes every branch `.ok`. -/
def addUndispatched (uploadEnabled ioFail : Bool) (name : String)
    (amount : Option ℚ) (s : GleanState) : Except TaskError GleanState :=
  if !(shouldRecord uploadEnabled) then .ok s
  else
    let amt := amount.getD 1
    match dbTransform ioFail (transformFn name amt) s with
    | .ok t => .ok t
    | .error (.validation e) => .ok (recordValidationError e s)
    | .error .storeFailure => .ok s

/-- A task enqueued on the dispatcher: the async closure built by `add`,
evaluated against the enablement flag and the store's health at execution
time. -/
abbrev GleanTask : Type := Bool → Bool → GleanState → Except TaskError GleanState

/-- The `Context` singleton's state, from the Context source file. Fields
declared there with a definite-assignment assertion are `Option`s, `none`
standing for JavaScript `undefined` before the field is set; handles to the
external collaborators are opaque. `initialized` and `startTime` are assigned
by the private constructor and therefore always present. -/
structure ContextState where
  dispatcher : Option (List GleanTask)
  uploadEnabled : Option Bool
  metricsDatabase : Option Nat
  eventsDatabase : Option Nat
  pingsDatabase : Option Nat
  errorManager : Option Nat
  applicationId : Option String
  debugOptions : Option Nat
  initialized : Bool
  startTime : Nat

/-- The misuse warning logged by a guarded `Context` accessor. -/
def contextUnsetWarning (field : String) : String :=
  s!"Attempted to access Context.{field} before it was set. This may cause unexpected behaviour."

/-- The static `Context.uploadEnabled` getter: log one misuse warning when the
field is still unset, then return the (possibly absent) value. -/
def ContextState.getUploadEnabled (c : ContextState) : Option Bool × List String :=
  (c.uploadEnabled,
    if c.uploadEnabled.isNone then [contextUnsetWarning "uploadEnabled"] else [])

/-- The static `Context.metricsDatabase` getter, guarded like
`getUploadEnabled`. -/
def ContextState.getMetricsDatabase (c : ContextState) : Option Nat × List String :=
  (c.metricsDatabase,
    if c.metricsDatabase.isNone then [contextUnsetWarning "metricsDatabase"] else [])

/-- The static `Context.eventsDatabase` getter, guarded like
`getUploadEnabled`. -/
def ContextState.getEventsDatabase (c : ContextState) : Option Nat × List String :=
  (c.eventsDatabase,
    if c.eventsDatabase.isNone then [contextUnsetWarning "eventsDatabase"] else [])

/-- The static `Context.pingsDatabase` getter, guarded like
`getUploadEnabled`. -/
def ContextState.getPingsDatabase (c : ContextState) : Option Nat × List String :=
  (c.pingsDatabase,
    if c.pingsDatabase.isNone then [contextUnsetWarning "pingsDatabase"] else [])

/-- The static `Context.errorManager` getter, guarded like
`getUploadEnabled`. -/
def ContextState.getErrorManager (c : ContextState) : Option Nat × List String :=
  (c.errorManager,
    if c.errorManager.isNone then [contextUnsetWarning "errorManager"] else [])

/-- The static `Context.applicationId` getter, guarded like
`getUploadEnabled`. -/
def ContextState.getApplicationId (c : ContextState) : Option String × List String :=
  (c.applicationId,
    if c.applicationId.isNone then [contextUnsetWarning "applicationId"] else [])

/-- The static `Context.debugOptions` getter, guarded like
`getUploadEnabled`. -/
def ContextState.getDebugOptions (c : ContextState) : Option Nat × List String :=
  (c.debugOptions,
    if c.debugOptions.isNone then [contextUnsetWarning "debugOptions"] else [])

/-- The static `Context.dispatcher` getter: lazily create a dispatcher when
none is available; it never logs and never yields an absent value. Returns
the dispatcher queue, the updated context, and the (empty) log output. -/
def ContextState.getDispatcher (c : ContextState) :
    List GleanTask × ContextState × List String :=
  match c.dispatcher with
  | some d => (d, c, [])
  | none => ([], { c with dispatcher := some [] }, [])

/-- The static `Context.initialized` getter: always set (the private
constructor assigns it), returned without any misuse warning. -/
def ContextState.getInitialized (c : ContextState) : Bool × List String :=
  (c.initialized, [])

/-- The static `Context.startTime` getter: always set (the private
constructor assigns it), returned without any misuse warning. -/
def ContextState.getStartTime (c : ContextState) : Nat × List String :=
  (c.startTime, [])

/-- The `Context.testUninitialize` test helper: drain and discard the
dispatcher queue and null the dispatcher reference, reset the `initialized`
flag to `false`, and restart the session start time; every other field is
left untouched. -/
def ContextState.testUninit (c : ContextState) (newStart : Nat) : ContextState :=
  { c with dispatcher := none, initialized := false, startTime := newStart }

/-- The `Context` freshly built by the private constructor: nothing set except
`initialized := false` and the start timestamp. -/
def freshContext (t : Nat) : ContextState :=
  { dispatcher := none, uploadEnabled := none, metricsDatabase := none,
    eventsDatabase := none, pingsDatabase := none, errorManager := none,
    applicationId := none, debugOptions := none, initialized := false,
    startTime := t }

/-- From counter.ts, `InternalCounterMetricType.add`:
it runs `Context.dispatcher.launch(async () => this.addUndispatched(amount))`,
fetching the dispatcher through the lazy getter and unconditionally enqueueing
the recording closure — the enablement flag is not consulted here but inside
the closure once it executes. -/
def contextCounterAdd (name : String) (amount : Option ℚ) (c : ContextState) :
    ContextState :=
  match c.getDispatcher with
  | (d, c2, _) =>
    let launched := d ++ [fun u f s => addUndispatched u f name amount s]
    { c2 with dispatcher := some launched }

/-- Trace events of the dispatcher: task `i` starting its store mutation, and
task `i` finishing it. -/
inductive DEvent where
  | start (i : Nat)
  | finish (i : Nat)
deriving DecidableEq

/-- Modelled from the spec: the single-writer dispatcher (its source is not
under src/). Tasks receive consecutive ids in launch order and wait in a FIFO
queue; `trace` records, in order, every start and finish of a store
mutation. -/
structure DispState where
  nextId : Nat
  queue : List Nat
  trace : List DEvent
deriving DecidableEq

/-- Modelled from the spec: the two dispatcher transitions — enqueue a new
task, or have the single worker run the task at the head of the queue to
completion, appending its start and finish to the trace with nothing
interleaved (one task at a time). -/
inductive DStep : DispState → DispState → Prop where
  | launch (s : DispState) :
      DStep s ⟨s.nextId + 1, s.queue ++ [s.nextId], s.trace⟩
  | runNext (n i : Nat) (q : List Nat) (tr : List DEvent) :
      DStep ⟨n, i :: q, tr⟩ ⟨n, q, tr ++ [DEvent.start i, DEvent.finish i]⟩

/-- Dispatcher states reachable from the freshly created dispatcher. -/
inductive DReach : DispState → Prop where
  | init : DReach ⟨0, [], []⟩
  | step {s t : DispState} : DReach s → DStep s t → DReach t

/-- The trace block contributed by running one task. -/
def expandTask (i : Nat) : List DEvent := [DEvent.start i, DEvent.finish i]

/-- Invariant of the dispatcher machine: the executed tasks are exactly the
ids `0..m-1`, run one at a time in id order, and the queue holds the ids from
`m` up to `nextId`, in launch order. -/
def DispInv (s : DispState) : Prop :=
  ∃ m, m ≤ s.nextId ∧ s.trace = (List.range m).flatMap expandTask ∧
    s.queue = List.range' m (s.nextId - m)

lemma isInteger_intCast (a : ℤ) : isInteger (.num (a : ℚ)) = true := by
  simp [isInteger, Rat.den_intCast]

lemma leZero_intCast_pos {a : ℤ} (ha : 0 < a) : (JValue.num (a : ℚ)).leZero = false := by
  simp [JValue.leZero, not_le]
  exact_mod_cast ha

lemma validateOrThrow_pos {a : ℤ} (ha : 0 < a) :
    validateOrThrow (.num (a : ℚ)) = .ok a := by
  unfold validateOrThrow CounterMetric.validate
  rw [isInteger_intCast, leZero_intCast_pos ha]
  simp [JValue.asInt, Rat.num_intCast]

lemma truthy_intCast_pos {a : ℤ} (ha : 0 < a) : (JValue.num (a : ℚ)).truthy = true := by
  simp [JValue.truthy]
  exact_mod_cast ha.ne'

lemma addU_fresh (name : String) {a : ℤ} (ha : 0 < a) (s : GleanState)
    (h : s.stored = none) :
    addUndispatched true false name (some (a : ℚ)) s
      = .ok { s with stored := some (.num (a : ℚ)) } := by
  unfold addUndispatched dbTransform transformFn CounterMetric.construct
  rw [h]
  simp [shouldRecord, validateOrThrow_pos ha]

lemma addU_onto (name : String) {a b : ℤ} (ha : 0 < a) (hb : 0 < b) (s : GleanState)
    (h : s.stored = some (.num (a : ℚ))) :
    addUndispatched true false name (some (b : ℚ)) s
      = .ok { s with stored := some (.num ((min (b + a) MAX_SAFE_INTEGER : ℤ) : ℚ)) } := by
  unfold addUndispatched dbTransform transformFn CounterMetric.construct
    CounterMetric.saturatingAddM
  rw [h]
  simp [shouldRecord, validateOrThrow_pos ha, validateOrThrow_pos hb,
    truthy_intCast_pos ha, saturatingAdd, Except.map]

/-- C1: with no prior stored value, recording the positive integer `a` and then
the positive integer `b` stores `min(a+b, MAX)`; recording them in the other
order stores the same value; in particular recording MAX and then 1 leaves the
stored value at MAX (saturation, not wraparound). -/
theorem counter_add_saturating_commutative (name : String) (a b : ℤ)
    (ha : 0 < a) (hb : 0 < b) :
    (addUndispatched true false name (some (a : ℚ)) emptyState).bind
        (fun t => addUndispatched true false name (some (b : ℚ)) t)
      = .ok { emptyState with
          stored := some (.num ((min (a + b) MAX_SAFE_INTEGER : ℤ) : ℚ)) } ∧
    (addUndispatched true false name (some (b : ℚ)) emptyState).bind
        (fun t => addUndispatched true false name (some (a : ℚ)) t)
      = (addUndispatched true false name (some (a : ℚ)) emptyState).bind
          (fun t => addUndispatched true false name (some (b : ℚ)) t) ∧
    (addUndispatched true false name (some ((MAX_SAFE_INTEGER : ℤ) : ℚ)) emptyState).bind
        (fun t => addUndispatched true false name (some ((1 : ℤ) : ℚ)) t)
      = .ok { emptyState with
          stored := some (.num ((MAX_SAFE_INTEGER : ℤ) : ℚ)) } := by
  have key : ∀ (x y : ℤ), 0 < x → 0 < y →
      (addUndispatched true false name (some (x : ℚ)) emptyState).bind
        (fun t => addUndispatched true false name (some (y : ℚ)) t)
      = .ok { emptyState with
          stored := some (.num ((min (y + x) MAX_SAFE_INTEGER : ℤ) : ℚ)) } := by
    intro x y hx hy
    rw [addU_fresh name hx emptyState rfl]
    show addUndispatched true false name (some (y : ℚ))
        { emptyState with stored := some (.num (x : ℚ)) } = _
    rw [addU_onto name hx hy _ rfl]
  refine ⟨?_, ?_, ?_⟩
  · rw [key a b ha hb, Int.add_comm b a]
  · rw [key b a hb ha, key a b ha hb, Int.add_comm b a]
  · rw [key MAX_SAFE_INTEGER 1 (by norm_num [MAX_SAFE_INTEGER]) one_pos,
      min_eq_right (le_add_of_nonneg_left one_pos.le)]

/-- Witness for C1 at a = 2, b = 3. -/
theorem counter_add_saturating_commutative_witness :
    (0 : ℤ) < 2 ∧ (0 : ℤ) < 3 ∧
    (addUndispatched true false "m" (some ((2 : ℤ) : ℚ)) emptyState).bind
        (fun t => addUndispatched true false "m" (some ((3 : ℤ) : ℚ)) t)
      = .ok { emptyState with
          stored := some (.num ((min ((2 : ℤ) + 3) MAX_SAFE_INTEGER : ℤ) : ℚ)) } :=
  ⟨by decide, by decide,
    (counter_add_saturating_commutative "m" 2 3 (by decide) (by decide)).1⟩

/-- The JavaScript number 0.5: a concrete non-integer rational, built directly
from its fields so that it computes by rfl. -/
def halfQ : ℚ := ⟨1, 2, by decide, Nat.coprime_one_left 2⟩

/-- C2 (amended): an invalid amount never mutates the stored value or the log,
is caught at the task boundary (no exception escapes to the caller), and is
converted into exactly one error-metric increment — tagged InvalidValue when
the amount is an integer ≤ 0, but an untagged validation error (not counted as
InvalidValue) when the amount is not an integer. -/
theorem counter_add_invalid_amount (name : String) (s : GleanState) (q : ℚ) :
    (isInteger (.num q) = false →
      addUndispatched true false name (some q) s
        = .ok { s with untaggedErrors := s.untaggedErrors + 1 }) ∧
    (isInteger (.num q) = true → q ≤ 0 →
      addUndispatched true false name (some q) s
        = .ok { s with invalidValueErrors := s.invalidValueErrors + 1 }) := by
  constructor
  · intro h
    unfold addUndispatched dbTransform transformFn CounterMetric.construct
      validateOrThrow CounterMetric.validate
    simp [shouldRecord, h, recordValidationError]
  · intro h hle
    unfold addUndispatched dbTransform transformFn CounterMetric.construct
      validateOrThrow CounterMetric.validate
    simp [shouldRecord, h, JValue.leZero, hle, recordValidationError]

/-- Witness for C2 at the non-integer amount 0.5 and the integer amount 0. -/
theorem counter_add_invalid_amount_witness :
    isInteger (.num halfQ) = false ∧
    addUndispatched true false "m" (some halfQ) emptyState
      = .ok { emptyState with untaggedErrors := 1 } ∧
    isInteger (.num 0) = true ∧ (0 : ℚ) ≤ 0 ∧
    addUndispatched true false "m" (some (0 : ℚ)) emptyState
      = .ok { emptyState with invalidValueErrors := 1 } :=
  ⟨rfl, (counter_add_invalid_amount "m" emptyState halfQ).1 rfl, rfl, le_refl 0,
    (counter_add_invalid_amount "m" emptyState 0).2 rfl (le_refl 0)⟩

/-- C2 counterexample: recording the non-integer amount 0.5 records an untagged
validation error and leaves the InvalidValue counter at 0, so the claim's
"increments the InvalidValue error counter by exactly 1" is false for
non-integer amounts. -/
theorem counter_add_noninteger_not_invalid_value :
    addUndispatched true false "m" (some halfQ) emptyState
      = .ok { emptyState with untaggedErrors := 1 } ∧
    ({ emptyState with untaggedErrors := 1 } : GleanState).invalidValueErrors = 0 :=
  ⟨rfl, rfl⟩

/-- C3 (amended): when the stored value is truthy but fails validation as a
merge input, the next recording of a valid positive delta logs exactly one
overwrite warning naming the metric, replaces the stored value with the new
delta, and increments no error-metric counter; a falsy corrupt stored value is
instead overwritten without any warning. -/
theorem counter_overwrites_corrupt_stored (name : String) {delta : ℤ}
    (hd : 0 < delta) (s : GleanState) (w : JValue) (hw : s.stored = some w)
    (ht : w.truthy = true) (hbad : (CounterMetric.validate w).isSuccess = false) :
    addUndispatched true false name (some (delta : ℚ)) s
      = .ok { s with stored := some (.num (delta : ℚ)),
                     logs := s.logs ++ [overwriteWarning name w] } := by
  obtain ⟨m, k, hvw⟩ : ∃ m k, CounterMetric.validate w = .error m k := by
    cases hv : CounterMetric.validate w with
    | success => rw [hv] at hbad; simp [MetricValidationResult.isSuccess] at hbad
    | error m k => exact ⟨m, k, rfl⟩
  have hvt : validateOrThrow w = .error ⟨m, k⟩ := by
    unfold validateOrThrow; rw [hvw]
  unfold addUndispatched dbTransform transformFn CounterMetric.construct
    CounterMetric.saturatingAddM
  rw [hw]
  simp [shouldRecord, validateOrThrow_pos hd, ht, hvt, Except.map]

/-- Witness for C3 with the corrupt truthy stored value "foo" and delta 1. -/
theorem counter_overwrites_corrupt_stored_witness :
    (0 : ℤ) < 1 ∧ (JValue.str "foo").truthy = true ∧
    (CounterMetric.validate (.str "foo")).isSuccess = false ∧
    addUndispatched true false "m" (some ((1 : ℤ) : ℚ))
        { emptyState with stored := some (.str "foo") }
      = .ok { emptyState with stored := some (.num ((1 : ℤ) : ℚ)),
                              logs := [overwriteWarning "m" (.str "foo")] } :=
  ⟨by decide, rfl, rfl,
    counter_overwrites_corrupt_stored "m" (by decide)
      { emptyState with stored := some (.str "foo") } (.str "foo") rfl rfl rfl⟩

/-- C3 counterexample: `null` stored for the metric fails validation as a
merge input, yet the next successful recording logs no warning at all — falsy
corrupt values are silently overwritten, so the claim's "logs a warning naming
the metric" is false for them. -/
theorem counter_overwrites_falsy_silently :
    (CounterMetric.validate .null).isSuccess = false ∧
    addUndispatched true false "m" (some ((1 : ℤ) : ℚ))
        { emptyState with stored := some .null }
      = .ok { emptyState with stored := some (.num ((1 : ℤ) : ℚ)) } ∧
    ({ emptyState with stored := some (.num ((1 : ℤ) : ℚ)) } : GleanState).logs = [] :=
  ⟨rfl, rfl, rfl⟩

/-- C4: `validate` returns an Error outcome for every non-integer candidate,
an Error outcome tagged InvalidValue for every integer candidate ≤ 0, and
Success for every integer candidate > 0. -/
theorem counter_validate_partition (v : JValue) :
    (isInteger v = false → ∃ m, CounterMetric.validate v = .error m none) ∧
    (isInteger v = true → v.leZero = true →
      ∃ m, CounterMetric.validate v = .error m (some .invalidValue)) ∧
    (isInteger v = true → v.leZero = false → CounterMetric.validate v = .success) := by
  constructor
  · intro h
    refine ⟨s!"Expected integer value, got {jsonStringify v}", ?_⟩
    simp [CounterMetric.validate, h]
  constructor
  · intro h hle
    refine ⟨s!"Expected positive value, got {jsonStringify v}", ?_⟩
    simp [CounterMetric.validate, h, hle]
  · intro h hle
    simp [CounterMetric.validate, h, hle]

/-- Witness for C4 at a string, the integer 0 and the integer 3. -/
theorem counter_validate_partition_witness :
    (∃ m, CounterMetric.validate (.str "x") = .error m none) ∧
    (∃ m, CounterMetric.validate (.num 0) = .error m (some .invalidValue)) ∧
    CounterMetric.validate (.num 3) = .success :=
  ⟨(counter_validate_partition (.str "x")).1 rfl,
   (counter_validate_partition (.num 0)).2.1 rfl rfl,
   (counter_validate_partition (.num 3)).2.2 rfl rfl⟩

/-- A context whose enablement flag is explicitly set to false and whose
dispatcher already exists with an empty queue. -/
def offContext : ContextState :=
  { freshContext 0 with uploadEnabled := some false, dispatcher := some [] }

/-- C5 counterexample: with the enablement flag explicitly false, a public
recording call still enqueues one task on the dispatcher — the flag is not
checked before enqueueing, contradicting "only if it is set ... enqueues". -/
theorem counter_add_enqueues_when_disabled :
    offContext.uploadEnabled = some false ∧
    ((contextCounterAdd "m" (some 5) offContext).dispatcher).map List.length = some 1 :=
  ⟨rfl, rfl⟩

/-- C5 (amended): a public recording call always builds the closure and
enqueues exactly one task via the (lazily created) dispatcher, without
consulting the enablement flag; the closure itself checks the flag when it
executes, so with the flag unset the task leaves the stored value, the error
counters and the log unchanged. -/
theorem counter_add_flag_checked_at_execution (name : String) (amount : Option ℚ)
    (c : ContextState) :
    ((contextCounterAdd name amount c).dispatcher).map List.length
      = some ((c.dispatcher.getD []).length + 1) ∧
    (∀ (f : Bool) (s : GleanState),
      addUndispatched false f name amount s = .ok s) := by
  constructor
  · cases hd : c.dispatcher with
    | none => simp [contextCounterAdd, ContextState.getDispatcher, hd]
    | some d => simp [contextCounterAdd, ContextState.getDispatcher, hd]
  · intro f s
    rfl

/-- C6 counterexample: when the store's transform fails with a non-validation
(store I/O) failure, `addUndispatched` completes normally with the state
unchanged — the failure is caught by the task's catch block and discarded, it
does not propagate out of the recording task. -/
theorem counter_store_failure_swallowed :
    dbTransform true (transformFn "m" 5) emptyState = .error .storeFailure ∧
    addUndispatched true true "m" (some 5) emptyState = .ok emptyState :=
  ⟨rfl, rfl⟩

/-- C6 (amended): a store failure raised by the transform operation is caught
by the task-boundary catch block, whose instanceof filter records only
validation errors; the store failure is silently discarded and the task
completes normally with the state unchanged — it neither propagates out of the
task nor is retried nor recorded as an error metric. -/
theorem counter_store_failure_not_propagated (u : Bool) (name : String)
    (amount : Option ℚ) (s : GleanState) :
    addUndispatched u true name amount s = .ok s := by
  cases u <;> rfl

/-- A fully initialized context, with distinct handle values so that
preservation is observable. -/
def readyContext : ContextState :=
  { dispatcher := some [], uploadEnabled := some true, metricsDatabase := some 1,
    eventsDatabase := some 2, pingsDatabase := some 3, errorManager := some 4,
    applicationId := some "app", debugOptions := some 5, initialized := true,
    startTime := 10 }

/-- C7 counterexample: `testUninitialize` does not clear only the dispatcher
reference — it also resets the `initialized` flag to false and restarts the
start time, so not every other Context field retains its value. -/
theorem context_test_uninit_resets_more_than_dispatcher :
    readyContext.initialized = true ∧
    (readyContext.testUninit 99).initialized = false ∧
    readyContext.startTime = 10 ∧
    (readyContext.testUninit 99).startTime = 99 :=
  ⟨rfl, rfl, rfl, rfl⟩

/-- C7 (amended): `testUninitialize` clears the dispatcher reference, resets
the `initialized` flag to false and restarts the start time; the store handle,
error recorder, enablement flag and the remaining handles retain their values,
and a subsequent recording call transparently recreates a working dispatcher
holding the new task via the lazy getter, still without touching those
fields. -/
theorem context_test_uninit_preserves_handles (c : ContextState) (t : Nat)
    (name : String) (amount : Option ℚ) :
    c.testUninit t
      = { c with dispatcher := none, initialized := false, startTime := t } ∧
    ((contextCounterAdd name amount (c.testUninit t)).dispatcher).map List.length
      = some 1 ∧
    (contextCounterAdd name amount (c.testUninit t)).uploadEnabled = c.uploadEnabled ∧
    (contextCounterAdd name amount (c.testUninit t)).metricsDatabase = c.metricsDatabase ∧
    (contextCounterAdd name amount (c.testUninit t)).errorManager = c.errorManager ∧
    (contextCounterAdd name amount (c.testUninit t)).eventsDatabase = c.eventsDatabase ∧
    (contextCounterAdd name amount (c.testUninit t)).pingsDatabase = c.pingsDatabase ∧
    (contextCounterAdd name amount (c.testUninit t)).applicationId = c.applicationId ∧
    (contextCounterAdd name amount (c.testUninit t)).debugOptions = c.debugOptions :=
  ⟨rfl, rfl, rfl, rfl, rfl, rfl, rfl, rfl, rfl⟩

/-- C8 counterexample: reading the dispatcher field before it is set logs no
warning at all and yields a freshly created, present dispatcher — so it is not
the case that reading any Context field before it is set logs exactly one
warning and returns an absent value. -/
theorem context_dispatcher_read_creates_silently :
    (freshContext 0).dispatcher = none ∧
    ((freshContext 0).getDispatcher).2.2 = ([] : List String) ∧
    ((freshContext 0).getDispatcher).2.1.dispatcher = some [] :=
  ⟨rfl, rfl, rfl⟩

/-- C8 (amended): each guarded Context accessor (uploadEnabled,
metricsDatabase, eventsDatabase, pingsDatabase, errorManager, applicationId,
debugOptions), when read before its field is set, logs exactly one misuse
warning and returns the absent value without failing; the dispatcher accessor
instead lazily creates a dispatcher and logs nothing. -/
theorem context_guarded_accessors_warn_once (c : ContextState) :
    (c.uploadEnabled = none →
      c.getUploadEnabled = (none, [contextUnsetWarning "uploadEnabled"])) ∧
    (c.metricsDatabase = none →
      c.getMetricsDatabase = (none, [contextUnsetWarning "metricsDatabase"])) ∧
    (c.eventsDatabase = none →
      c.getEventsDatabase = (none, [contextUnsetWarning "eventsDatabase"])) ∧
    (c.pingsDatabase = none →
      c.getPingsDatabase = (none, [contextUnsetWarning "pingsDatabase"])) ∧
    (c.errorManager = none →
      c.getErrorManager = (none, [contextUnsetWarning "errorManager"])) ∧
    (c.applicationId = none →
      c.getApplicationId = (none, [contextUnsetWarning "applicationId"])) ∧
    (c.debugOptions = none →
      c.getDebugOptions = (none, [contextUnsetWarning "debugOptions"])) ∧
    (c.dispatcher = none →
      c.getDispatcher = ([], { c with dispatcher := some [] }, [])) := by
  refine ⟨?_, ?_, ?_, ?_, ?_, ?_, ?_, ?_⟩ <;> intro h
  · simp [ContextState.getUploadEnabled, h]
  · simp [ContextState.getMetricsDatabase, h]
  · simp [ContextState.getEventsDatabase, h]
  · simp [ContextState.getPingsDatabase, h]
  · simp [ContextState.getErrorManager, h]
  · simp [ContextState.getApplicationId, h]
  · simp [ContextState.getDebugOptions, h]
  · simp [ContextState.getDispatcher, h]

/-- Witness for C8 on the freshly constructed context. -/
theorem context_guarded_accessors_warn_once_witness :
    (freshContext 7).uploadEnabled = none ∧
    (freshContext 7).getUploadEnabled
      = (none, [contextUnsetWarning "uploadEnabled"]) ∧
    (freshContext 7).getMetricsDatabase
      = (none, [contextUnsetWarning "metricsDatabase"]) :=
  ⟨rfl, (context_guarded_accessors_warn_once (freshContext 7)).1 rfl,
    (context_guarded_accessors_warn_once (freshContext 7)).2.1 rfl⟩

lemma dispInv_launch {s : DispState} (h : DispInv s) :
    DispInv ⟨s.nextId + 1, s.queue ++ [s.nextId], s.trace⟩ := by
  obtain ⟨m, hm, htr, hq⟩ := h
  refine ⟨m, ?_, htr, ?_⟩
  · show m ≤ s.nextId + 1
    omega
  · show s.queue ++ [s.nextId] = List.range' m (s.nextId + 1 - m)
    have h1 : s.nextId + 1 - m = (s.nextId - m) + 1 := by omega
    rw [h1, List.range'_concat, ← hq]
    congr 2
    omega

lemma dispInv_run {n i : Nat} {q : List Nat} {tr : List DEvent}
    (h : DispInv ⟨n, i :: q, tr⟩) :
    DispInv ⟨n, q, tr ++ [DEvent.start i, DEvent.finish i]⟩ := by
  obtain ⟨m, hm, htr, hq⟩ := h
  simp only at hm htr hq
  have hne : n - m ≠ 0 := by
    intro h0
    rw [h0] at hq
    simp [List.range'] at hq
  obtain ⟨k, hk⟩ : ∃ k, n - m = k + 1 := ⟨n - m - 1, by omega⟩
  rw [hk, List.range'_succ] at hq
  have him : i = m := (List.cons.injEq ..).mp hq |>.1
  have hqq : q = List.range' (m + 1) k := (List.cons.injEq ..).mp hq |>.2
  refine ⟨m + 1, ?_, ?_, ?_⟩
  · show m + 1 ≤ n
    omega
  · show tr ++ [DEvent.start i, DEvent.finish i]
        = (List.range (m + 1)).flatMap expandTask
    rw [List.range_succ, List.flatMap_append, ← htr, him]
    simp [expandTask]
  · show q = List.range' (m + 1) (n - (m + 1))
    rw [hqq]
    congr 1
    omega

lemma dispInv_of_reach {s : DispState} (h : DReach s) : DispInv s := by
  induction h with
  | init => exact ⟨0, Nat.le_refl 0, rfl, rfl⟩
  | step _ hs ih =>
    cases hs with
    | launch => exact dispInv_launch ih
    | runNext n i q tr => exact dispInv_run ih

lemma flatMap_expand_split (k m : Nat) (h : k < m) :
    ∃ w, (List.range m).flatMap expandTask
      = (List.range k).flatMap expandTask
          ++ DEvent.start k :: DEvent.finish k :: w := by
  induction m with
  | zero => omega
  | succ m ih =>
    rcases Nat.lt_succ_iff_lt_or_eq.mp h with h2 | h2
    · obtain ⟨w, hw⟩ := ih h2
      refine ⟨w ++ expandTask m, ?_⟩
      rw [List.range_succ, List.flatMap_append, hw]
      simp [expandTask]
    · subst h2
      refine ⟨[], ?_⟩
      rw [List.range_succ, List.flatMap_append]
      simp [expandTask]

/-- C9: in every reachable state of the dispatcher machine, if task `i` was
launched before task `j` (`i < j` in launch order) and task `j` has started
its store mutation, then task `i` finished its store mutation strictly before
`j` started — tasks execute one at a time, strictly in submission order. -/
theorem dispatcher_fifo_ordering {s : DispState} (hs : DReach s) {i j : Nat}
    (hij : i < j) (hj : DEvent.start j ∈ s.trace) :
    ∃ u v w, s.trace = u ++ DEvent.finish i :: v ++ DEvent.start j :: w := by
  obtain ⟨m, hm, htr, hq⟩ := dispInv_of_reach hs
  have hjm : j < m := by
    rw [htr] at hj
    simpa [List.mem_flatMap, expandTask, List.mem_range] using hj
  obtain ⟨w1, hw1⟩ := flatMap_expand_split j m hjm
  obtain ⟨w2, hw2⟩ := flatMap_expand_split i j hij
  refine ⟨(List.range i).flatMap expandTask ++ [DEvent.start i], w2,
    DEvent.finish j :: w1, ?_⟩
  rw [htr, hw1, hw2]
  simp

/-- Witness for C9 on a concrete run: launch task 0, launch task 1, then run
both; task 0's finish precedes task 1's start in the resulting trace. -/
theorem dispatcher_fifo_ordering_witness :
    (0 : Nat) < 1 ∧
    DEvent.start 1 ∈
      ([DEvent.start 0, DEvent.finish 0, DEvent.start 1, DEvent.finish 1] : List DEvent) ∧
    ∃ u v w,
      ([DEvent.start 0, DEvent.finish 0, DEvent.start 1, DEvent.finish 1] : List DEvent)
        = u ++ DEvent.finish 0 :: v ++ DEvent.start 1 :: w := by
  refine ⟨by decide, by decide, ?_⟩
  have h0 : DReach ⟨0, [], []⟩ := DReach.init
  have h1 : DReach ⟨1, [0], []⟩ := h0.step (DStep.launch ⟨0, [], []⟩)
  have h2 : DReach ⟨2, [0, 1], []⟩ := h1.step (DStep.launch ⟨1, [0], []⟩)
  have h3 : DReach ⟨2, [1], [DEvent.start 0, DEvent.finish 0]⟩ :=
    h2.step (DStep.runNext 2 0 [1] [])
  have h4 : DReach
      ⟨2, [], [DEvent.start 0, DEvent.finish 0, DEvent.start 1, DEvent.finish 1]⟩ :=
    h3.step (DStep.runNext 2 1 [] [DEvent.start 0, DEvent.finish 0])
  exact dispatcher_fifo_ordering h4 (by decide) (by decide)

/-- C10: the transform closure treats a falsy stored raw value — in particular
the number 0 — exactly like an absent one: no merge is attempted, no
corrupt-data warning is logged, and the result holds only the new delta. -/
theorem counter_transform_falsy_as_absent (name : String) {a : ℤ} (ha : 0 < a)
    (w : JValue) (hw : w.truthy = false) :
    transformFn name (a : ℚ) (some w) = .ok (a, []) ∧
    transformFn name (a : ℚ) none = .ok (a, []) := by
  unfold transformFn CounterMetric.construct
  rw [validateOrThrow_pos ha]
  simp [hw]

/-- Witness for C10 with the stored number 0 and delta 1. -/
theorem counter_transform_falsy_as_absent_witness :
    (0 : ℤ) < 1 ∧ (JValue.num 0).truthy = false ∧
    transformFn "m" ((1 : ℤ) : ℚ) (some (.num 0)) = .ok (1, []) :=
  ⟨by decide, rfl, (counter_transform_falsy_as_absent "m" (by decide) (.num 0) rfl).1⟩
